import Mathlib

/-!
Shallow embedding of the Duktape/JNI bridging layer implemented in
`src/duktape/src/main/jni/DuktapeContext.cpp`.

The embedding models the two heaps the bridge mediates between:

* the Java side (object identities, classes, JNI global/weak references,
  garbage-collection status), and
* the Duktape side (engine-heap objects with their hidden bookkeeping
  properties, the value stack, the global stash, the global object).

Machine pointers (`void*`, `jobject`, `jweak`) are modelled as natural
numbers that index finite association lists.  Functions that translate the
C++ are named after the functions they embed; helpers that model repository
code that is not part of `DuktapeContext.cpp` carry a doc comment starting
with `Modelled from the spec:`.
-/

namespace DuktapeBridge

/-- The scalar values the registered native marshallers handle directly. -/
inductive ScalarVal where
  | boolean (b : Bool)
  | number (n : Int)
  | str (s : String)
deriving DecidableEq

/-- A value slot on the Duktape stack, tagged the way `duk_get_type` /
`duk_check_type_mask` / `duk_is_array` distinguish values. -/
inductive DukValue where
  | undefined
  | nullVal
  | boolean (b : Bool)
  | number (n : Int)
  | str (s : String)
  | pointer (r : Nat)
  | array (p : Nat)
  | object (p : Nat)
  | buffer
deriving DecidableEq

/-- The runtime class of a Java object, as far as the bridge's
`IsAssignableFrom` / `m_javaValues.get` tests can distinguish it. -/
inductive JClass where
  /-- `com.squareup.duktape.JavaScriptObject`: a host-visible handle carrying
  the `context` and `pointer` long fields read by `pushObject`. -/
  | javaScriptObject (context : Nat) (pointer : Nat)
  /-- An object implementing `com.squareup.duktape.DuktapeObject` directly. -/
  | duktapeObject
  /-- `com.squareup.duktape.JavaObject`: the generic adapter wrapping an
  arbitrary Java object (it implements `DuktapeObject`). -/
  | javaObject (wrapped : Nat)
  /-- A plain Java object: neither a registered native type nor a
  `DuktapeObject`. -/
  | plainJava
  /-- A boxed value of a registered native scalar type. -/
  | nativeScalar (v : ScalarVal)
  /-- A Java array produced by `popArray`. -/
  | boxedArray
deriving DecidableEq

/-- Whether a JNI reference is a global (strong) or weak-global reference. -/
inductive RefKind where
  | strong
  | weak
deriving DecidableEq

/-- The bookkeeping the JVM keeps per JNI reference. -/
structure JniRef where
  target : Nat
  kind : RefKind
deriving DecidableEq

/-- An engine-level (Duktape) error. -/
inductive EngineErr where
  /-- An error produced by rethrowing a pending host exception
  (identified by a numeric id) into the engine. -/
  | fromHost (e : Nat)
  /-- An ordinary script-side throw. -/
  | scriptThrow (msg : String)
deriving DecidableEq

/-- A host-visible (Java) exception queued for the caller. -/
inductive HostExn where
  | illegalArgument (msg : String)
  | fromEngine (e : EngineErr)
deriving DecidableEq

/-- An engine-heap object together with the hidden bookkeeping properties the
bridge attaches to it. -/
structure DukObj where
  /-- The hidden `\xff\xffjava_this` property (`JAVA_THIS_PROP_NAME`):
  a JNI reference stored as a `duk_push_pointer` value. -/
  javaThis : Option Nat := none
  /-- The hidden `\xff\xffjava_method` property (`JAVA_METHOD_PROP_NAME`)
  when stored directly on this object. -/
  javaMethodProp : Option Nat := none
  /-- The script-visible `__java_this` property: a weak JNI reference to the
  cached host-visible handle. -/
  javaThisWeak : Option Nat := none
  /-- Whether `duk_set_finalizer` installed `javaObjectFinalizer`. -/
  hasFinalizer : Bool := false
  /-- Bound-method properties: property name paired with the `JavaMethod`
  record its function value carries under `JAVA_METHOD_PROP_NAME`. -/
  methods : List (String × Nat) := []
  /-- The `__duktape_get` trap-function property. -/
  hasGetTrapFn : Bool := false
  /-- The `__duktape_apply` trap-function property. -/
  hasApplyTrapFn : Bool := false
  /-- When this object is the result of `__makeProxy`, the configuration
  object the proxy is wired to. -/
  proxyTarget : Option Nat := none
  /-- Indexed elements, for objects used as argument arrays. -/
  elems : List DukValue := []
deriving DecidableEq

/-- The Java side: classes, collection status, and the JNI reference table. -/
structure JavaEnv where
  classes : List (Nat × JClass) := []
  /-- Identities whose Java object has been garbage collected. -/
  collected : List Nat := []
  refs : List (Nat × JniRef) := []
  nextRef : Nat := 0
  nextId : Nat := 0
deriving DecidableEq

/-- A method descriptor passed to `DuktapeContext::set`; `valid` records
whether `JavaMethod` construction succeeds for it. -/
structure MethodDesc where
  name : String
  valid : Bool
deriving DecidableEq

/-- The full state of one `DuktapeContext` plus the host runtime around it. -/
structure DukState where
  /-- The identity of this context (compared against the `context` field of a
  `JavaScriptObject` in `pushObject`). -/
  ctxId : Nat := 0
  java : JavaEnv := {}
  heap : List (Nat × DukObj) := []
  nextPtr : Nat := 0
  /-- Heap pointers registered in the global stash by `popObject`
  (`duk_put_prop_heapptr` on the stash keeps the object reachable). -/
  stash : List Nat := []
  /-- The properties of the Duktape global object. -/
  globals : List (String × DukValue) := []
  /-- The Duktape value stack; the head is the top. -/
  stack : List DukValue := []
  /-- Host-visible exceptions queued for the Java caller. -/
  pending : List HostExn := []
  /-- Every `DeleteGlobalRef` call performed, in order (for lifecycle
  accounting). -/
  releasedRefs : List Nat := []
  /-- Every `delete JavaMethod` call performed, in order. -/
  deletedMethods : List Nat := []
  nextMethodId : Nat := 0
deriving DecidableEq

/-- First-match lookup in an association list. -/
def assocFind {κ α : Type} [DecidableEq κ] (k : κ) : List (κ × α) → Option α
  | [] => none
  | (a, b) :: rest => if a = k then some b else assocFind k rest

/-- Replace the first binding of `k` (no-op when `k` is absent). -/
def assocSet {κ α : Type} [DecidableEq κ] (k : κ) (v : α) :
    List (κ × α) → List (κ × α)
  | [] => []
  | (a, b) :: rest => if a = k then (a, v) :: rest else (a, b) :: assocSet k v rest

/-- Remove every binding of `k`. -/
def assocRemove {κ α : Type} [DecidableEq κ] (k : κ) :
    List (κ × α) → List (κ × α)
  | [] => []
  | (a, b) :: rest => if a = k then assocRemove k rest else (a, b) :: assocRemove k rest

/-- Boolean membership for lists of naturals. -/
def memNat (x : Nat) : List Nat → Bool
  | [] => false
  | y :: rest => if y = x then true else memNat x rest

/-- `env->GetObjectClass` composed with the class tests the bridge performs. -/
def JavaEnv.classOf (j : JavaEnv) (o : Nat) : Option JClass :=
  assocFind o j.classes

/-- The JVM's record for a JNI reference. -/
def JavaEnv.refInfo (j : JavaEnv) (r : Nat) : Option JniRef :=
  assocFind r j.refs

/-- The Java object a JNI reference designates. -/
def JavaEnv.refTarget (j : JavaEnv) (r : Nat) : Option Nat :=
  (assocFind r j.refs).map (fun i => i.target)

/-- `env->IsSameObject(ref, nullptr)`: true exactly when the reference is a
weak reference whose referent has been collected (a strong global reference
keeps its referent alive). -/
def JavaEnv.isClearedRef (j : JavaEnv) (r : Nat) : Bool :=
  match assocFind r j.refs with
  | some i => if i.kind = RefKind.weak then memNat i.target j.collected else false
  | none => true

/-- `env->NewGlobalRef` / `env->NewWeakGlobalRef`. -/
def JavaEnv.newRef (j : JavaEnv) (o : Nat) (k : RefKind) : Nat × JavaEnv :=
  (j.nextRef,
    { j with refs := (j.nextRef, ⟨o, k⟩) :: j.refs, nextRef := j.nextRef + 1 })

/-- `env->DeleteGlobalRef` / `env->DeleteWeakGlobalRef` (reference-table part). -/
def JavaEnv.deleteRef (j : JavaEnv) (r : Nat) : JavaEnv :=
  { j with refs := assocRemove r j.refs }

/-- `env->NewObject`: allocate a fresh Java object of the given class. -/
def JavaEnv.newObject (j : JavaEnv) (c : JClass) : Nat × JavaEnv :=
  (j.nextId,
    { j with classes := (j.nextId, c) :: j.classes, nextId := j.nextId + 1 })

/-- `duk_get_heapptr`-style lookup of an engine-heap object. -/
def DukState.heapGet (s : DukState) (p : Nat) : Option DukObj :=
  assocFind p s.heap

/-- Overwrite the engine-heap object at `p`. -/
def DukState.heapSet (s : DukState) (p : Nat) (o : DukObj) : DukState :=
  { s with heap := assocSet p o s.heap }

/-- `duk_push_object`: allocate a fresh engine-heap object. -/
def DukState.heapAlloc (s : DukState) (o : DukObj) : Nat × DukState :=
  (s.nextPtr, { s with heap := (s.nextPtr, o) :: s.heap, nextPtr := s.nextPtr + 1 })

/-- Push one value slot onto the Duktape stack. -/
def DukState.pushVal (s : DukState) (v : DukValue) : DukState :=
  { s with stack := v :: s.stack }

/-- `duk_check_type_mask(ctx, -1, BOOLEAN | NUMBER | STRING)`: the scalar
carried by the value when the mask matches. -/
def scalarOf : DukValue → Option ScalarVal
  | .boolean b => some (.boolean b)
  | .number n => some (.number n)
  | .str s => some (.str s)
  | _ => none

/-- Result of `duk_has_prop_string(ctx, -1, "__java_this")` on the engine
object at `p`.

Modelled from the spec for the proxy case: the `__makeProxy` factory (script
code of this repository that is not under `src/`, described in the spec as a
"script-side trap-wiring helper") wires `__duktape_get` as the proxy's get
trap, and the spec states that reading the reserved identity-field name on a
proxy short-circuits inside the trap and yields the raw handle; accordingly a
proxy reports the identity field exactly when its configuration object
carries the hidden handle. -/
def DukState.hasJavaThisProp (s : DukState) (p : Nat) : Bool :=
  match s.heapGet p with
  | none => false
  | some o =>
    match o.proxyTarget with
    | some t => (match s.heapGet t with
                 | some cfg => cfg.javaThis.isSome
                 | none => false)
    | none => o.javaThisWeak.isSome

/-- Result of `duk_get_prop_string(ctx, -1, "__java_this")` on the engine
object at `p`, as a pointer value.

Modelled from the spec for the proxy case, as in `hasJavaThisProp`: a read of
the identity field on a proxy routes through `__duktape_get`, which
short-circuits and returns the raw hidden handle of the configuration
object. -/
def DukState.readJavaThisProp (s : DukState) (p : Nat) : Option Nat :=
  match s.heapGet p with
  | none => none
  | some o =>
    match o.proxyTarget with
    | some t => (match s.heapGet t with
                 | some cfg => cfg.javaThis
                 | none => none)
    | none => o.javaThisWeak

/-- The `DUK_TYPE_OBJECT` branch of `DuktapeContext::popObject`
(DuktapeContext.cpp lines 156-208): resolve the cached `__java_this` weak
handle if it is still alive, otherwise clear the stale cache entry, register
the heap pointer in the global stash, create a fresh `JavaScriptObject`
handle and attach a weak reference to it. -/
def DukState.popObjectObjectCase (s : DukState) (p : Nat)
    (rest : List DukValue) : Option Nat × DukState :=
  let cached : Option Nat × DukState :=
    if s.hasJavaThisProp p then
      match s.readJavaThisProp p with
      | some r =>
        if s.java.isClearedRef r then
          -- the weak reference is stale: delete it and the cache property
          let s₁ := { s with java := s.java.deleteRef r }
          let s₂ :=
            match s₁.heapGet p with
            | some o => s₁.heapSet p { o with javaThisWeak := none }
            | none => s₁
          (none, s₂)
        else (some r, s)
      | none => (none, s)
    else (none, s)
  match cached with
  | (some r, s₁) =>
    -- pop the JavaScript object and return the cached handle unchanged
    (s₁.java.refTarget r, { s₁ with stack := rest })
  | (none, s₁) =>
    -- hold a hard reference to this JavaScript object in the global stash
    let s₂ := { s₁ with stash := p :: s₁.stash }
    -- new JavaScriptObject(duktape, ptr)
    let n := JavaEnv.newObject s₂.java (JClass.javaScriptObject s₂.ctxId p)
    let s₃ := { s₂ with java := n.2 }
    -- attach a weak reference to the new handle onto the JavaScript object
    let w := JavaEnv.newRef s₃.java n.1 RefKind.weak
    let s₄ := { s₃ with java := w.2 }
    let s₅ :=
      match s₄.heapGet p with
      | some o => s₄.heapSet p { o with javaThisWeak := some w.1 }
      | none => s₄
    (some n.1, { s₅ with stack := rest })

/-- `DuktapeContext::popObject` (DuktapeContext.cpp lines 149-214): classify
the value on the stack top, consume one slot, and return the marshalled Java
object (or null).  The scalar and array branches abstract
`m_objectType->pop` / `popArray` as allocation of a fresh boxed Java
value. -/
def DukState.popObject (s : DukState) : Option Nat × DukState :=
  match s.stack with
  | [] => (none, s)
  | v :: rest =>
    match scalarOf v with
    | some sc =>
      -- the result is a supported scalar type
      let n := JavaEnv.newObject s.java (JClass.nativeScalar sc)
      (some n.1, { s with java := n.2, stack := rest })
    | none =>
      match v with
      | .array _ =>
        let n := JavaEnv.newObject s.java JClass.boxedArray
        (some n.1, { s with java := n.2, stack := rest })
      | .object p => s.popObjectObjectCase p rest
      | _ =>
        -- unsupported type, undefined, or null: pop and return null
        (none, { s with stack := rest })

/-- `DuktapeContext::popObject2`: `popObject` followed by one extra
`duk_pop`. -/
def DukState.popObject2 (s : DukState) : Option Nat × DukState :=
  let r := s.popObject
  (r.1, { r.2 with stack := r.2.stack.tail })

/-- Modelled from the spec: the script-side `__makeProxy` factory is
repository code that is not under `src/`.  Per the spec it is invoked with
the freshly built configuration object and yields the actual proxy object the
caller receives, wired so that property reads and calls dispatch through the
configuration object's `__duktape_get` / `__duktape_apply` traps. -/
def DukState.makeProxy (s : DukState) (configPtr : Nat) : Nat × DukState :=
  s.heapAlloc { proxyTarget := some configPtr }

/-- The proxy-creation tail of `DuktapeContext::pushObject`
(DuktapeContext.cpp lines 361-382): build the configuration object with a
strong global reference under `JAVA_THIS_PROP_NAME`, a finalizer, and the two
trap functions, then invoke `__makeProxy` on it and leave the proxy on the
stack. -/
def DukState.pushProxyFor (s : DukState) (oid : Nat) : DukState :=
  let g := JavaEnv.newRef s.java oid RefKind.strong
  let s₁ := { s with java := g.2 }
  let a := s₁.heapAlloc
    { javaThis := some g.1, hasFinalizer := true,
      hasGetTrapFn := true, hasApplyTrapFn := true }
  let s₂ := a.2
  let m := s₂.makeProxy a.1
  m.2.pushVal (DukValue.object m.1)

/-- `DuktapeContext::pushObject(JNIEnv*, jobject)` (DuktapeContext.cpp lines
308-383): null pushes engine null; a registered native scalar type is pushed
directly; a `JavaScriptObject` belonging to this context pushes its cached
heap pointer; any other `DuktapeObject` (including a foreign context's
`JavaScriptObject`) is proxied as-is; a plain Java object is first wrapped in
a `JavaObject` adapter and then proxied. -/
def DukState.pushObject (s : DukState) (obj : Option Nat) : DukState :=
  match obj with
  | none => s.pushVal DukValue.nullVal
  | some oid =>
    match s.java.classOf oid with
    | none => s
    | some (JClass.nativeScalar v) =>
      (match v with
       | .boolean b => s.pushVal (DukValue.boolean b)
       | .number n => s.pushVal (DukValue.number n)
       | .str t => s.pushVal (DukValue.str t))
    | some JClass.boxedArray =>
      let a := s.heapAlloc {}
      a.2.pushVal (DukValue.array a.1)
    | some (JClass.javaScriptObject c ptr) =>
      if c = s.ctxId then
        -- unpack the native duktape heap pointer and push it directly
        s.pushVal (DukValue.object ptr)
      else
        -- a proxy exists but for another context: re-wrap as a new proxy
        s.pushProxyFor oid
    | some JClass.duktapeObject => s.pushProxyFor oid
    | some (JClass.javaObject _) => s.pushProxyFor oid
    | some JClass.plainJava =>
      -- wrap the plain Java object in a JavaObject adapter, then proxy it
      let n := JavaEnv.newObject s.java (JClass.javaObject oid)
      ({ s with java := n.2 }).pushProxyFor n.1

/-- `DuktapeContext::pushObject(JNIEnv*, jlong)`: push a raw engine-heap
pointer. -/
def DukState.pushHeapPtr (s : DukState) (p : Nat) : DukState :=
  s.pushVal (DukValue.object p)

/-- `fatalErrorHandler` (DuktapeContext.cpp lines 111-120): both build
variants throw `std::runtime_error`; the handler never returns. -/
def fatalErrorHandler (msg : String) : Except String Unit :=
  Except.error msg

/-- `env->IsAssignableFrom(objectClass, DuktapeObject)`: whether the object's
runtime class implements `com.squareup.duktape.DuktapeObject`
(`JavaScriptObject` and `JavaObject` both do). -/
def JClass.isAssignableToDuktapeObject : JClass → Bool
  | JClass.javaScriptObject _ _ => true
  | JClass.duktapeObject => true
  | JClass.javaObject _ => true
  | _ => false

/-- The outcome of a Duktape-to-native trap invocation, as seen by the
engine. -/
inductive TrapOut where
  /-- The trap returned 1 with a marshalled value pushed (the state records
  the pushed result). -/
  | value (s : DukState)
  /-- The trap returned `DUK_RET_REFERENCE_ERROR`. -/
  | refError (s : DukState)
  /-- The trap returned `DUK_RET_ERROR` after converting a pending host
  exception into an engine error. -/
  | engineError (e : EngineErr) (s : DukState)
deriving DecidableEq

/-- The engine error carried by a trap outcome, when there is one. -/
def trapEngineErr : Except String TrapOut → Option EngineErr
  | Except.ok (TrapOut.engineError e _) => some e
  | _ => none

/-- Whether the trap marshalled a result value back to the engine. -/
def trapMarshalledResult : Except String TrapOut → Bool
  | Except.ok (TrapOut.value _) => true
  | _ => false

/-- `__duktape_get` (DuktapeContext.cpp lines 222-263): the proxy get trap.
`Except.error` models the C++ exception thrown by `fatalErrorHandler`
unwinding out of the trap.  `hostGet` abstracts
`DuktapeObject.get(Object)`. -/
def dukGet (hostGet : Nat → String → Option Nat)
    (s : DukState) (targetPtr : Nat) (prop : String) : Except String TrapOut :=
  -- get the java reference from the target's hidden property
  match (s.heapGet targetPtr).bind (fun o => o.javaThis) with
  | none =>
    -- dangling proxy: fatalErrorHandler throws, so the
    -- DUK_RET_REFERENCE_ERROR return below it is unreachable
    match fatalErrorHandler "DuktapeObject is null" with
    | Except.error msg => Except.error msg
    | Except.ok _ => Except.ok (TrapOut.refError s)
  | some r =>
    if prop = "__java_this" then
      -- short circuit the pointer retrieval from popObject here
      Except.ok (TrapOut.value (s.pushVal (DukValue.pointer r)))
    else
      match s.java.refTarget r with
      | none => Except.error "stale reference"
      | some oid =>
        match s.java.classOf oid with
        | none => Except.error "stale object"
        | some cls =>
          if cls.isAssignableToDuktapeObject = false then
            -- capability failure: fatalErrorHandler throws, so the
            -- DUK_RET_REFERENCE_ERROR return below it is unreachable
            match fatalErrorHandler "Object is not DuktapeObject" with
            | Except.error msg => Except.error msg
            | Except.ok _ => Except.ok (TrapOut.refError s)
          else
            Except.ok (TrapOut.value (s.pushObject (hostGet oid prop)))

/-- Marshal an engine-side argument array element by element through
`popObject`, as the loop in `__duktape_apply` does. -/
def DukState.marshalArgs (s : DukState) (elems : List DukValue) :
    List (Option Nat) × DukState :=
  elems.foldl
    (fun acc v =>
      let r := (DukState.pushVal acc.2 v).popObject
      (acc.1 ++ [r.1], r.2))
    ([], s)

/-- `__duktape_apply` (DuktapeContext.cpp lines 265-302): the proxy apply
trap.  `hostInvoke` abstracts `DuktapeObject.invoke(Object, Object[])`; its
`Except.error e` case models a pending host exception with identity `e`,
which `checkRethrowDuktapeError` (repository code outside `src/`, modelled
from the spec) converts into an engine-level execution error that propagates
immediately without marshalling a result. -/
def dukApply
    (hostInvoke : Nat → Option Nat → List (Option Nat) →
      Except Nat (Option Nat))
    (s : DukState) (targetPtr : Nat) (thisV : DukValue) (argsPtr : Nat) :
    Except String TrapOut :=
  -- unpack the arguments
  let elems :=
    match s.heapGet argsPtr with
    | some o => o.elems
    | none => []
  let m := s.marshalArgs elems
  -- unpack the call's this binding the same way
  let t := (DukState.pushVal m.2 thisV).popObject
  let s₂ := t.2
  match (s₂.heapGet targetPtr).bind (fun o => o.javaThis) with
  | none => Except.error "pointer required"
  | some r =>
    match s₂.java.refTarget r with
    | none => Except.error "stale reference"
    | some oid =>
      match s₂.java.classOf oid with
      | none => Except.error "stale object"
      | some cls =>
        if cls.isAssignableToDuktapeObject = false then
          -- capability failure: fatalErrorHandler throws, so the
          -- DUK_RET_REFERENCE_ERROR return below it is unreachable
          match fatalErrorHandler "Object is not DuktapeObject" with
          | Except.error msg => Except.error msg
          | Except.ok _ => Except.ok (TrapOut.refError s₂)
        else
          match hostInvoke oid t.1 m.1 with
          | Except.error e =>
            -- checkRethrowDuktapeError failed: propagate DUK_RET_ERROR
            -- without marshalling a result
            Except.ok (TrapOut.engineError (EngineErr.fromHost e) s₂)
          | Except.ok ret => Except.ok (TrapOut.value (s₂.pushObject ret))

/-- The outcome of `duk_pcall` / `duk_pcall_prop` for one engine execution. -/
inductive PCallOut where
  | success (v : DukValue)
  | failure (e : EngineErr)
deriving DecidableEq

/-- Modelled from the spec: `queueJavaExceptionForDuktapeError` lives in
`java/JavaExceptions.cpp`, which is not under `src/`.  Per the spec (section
7) a script-execution failure is captured at the context boundary and
converted into exactly one pending host-visible exception. -/
def DukState.queueJavaExceptionForDuktapeError (s : DukState) (e : EngineErr) :
    DukState :=
  { s with pending := s.pending ++ [HostExn.fromEngine e] }

/-- Modelled from the spec: `queueIllegalArgumentException` lives in
`java/JavaExceptions.cpp`, which is not under `src/`; it queues exactly one
host-visible `IllegalArgumentException`. -/
def DukState.queueIllegalArgumentException (s : DukState) (msg : String) :
    DukState :=
  { s with pending := s.pending ++ [HostExn.illegalArgument msg] }

/-- `DuktapeContext::call` (DuktapeContext.cpp lines 385-405): push the
target and the arguments, run `duk_pcall` (abstracted by the `pcall`
oracle), and either pop the result or queue the engine error and return
null. -/
def DukState.call (pcall : DukState → Nat → PCallOut)
    (s : DukState) (fnPtr : Nat) (args : List (Option Nat)) :
    Option Nat × DukState :=
  let s₁ := s.pushHeapPtr fnPtr
  let s₂ := args.foldl (fun st a => st.pushObject a) s₁
  match pcall s₂ args.length with
  | PCallOut.success v =>
    let s₃ := { s₂ with stack := v :: s₂.stack.drop (args.length + 1) }
    s₃.popObject
  | PCallOut.failure e =>
    let s₃ := { s₂ with stack := s₂.stack.drop (args.length + 1) }
    (none, s₃.queueJavaExceptionForDuktapeError e)

/-- `DuktapeContext::callProperty` (DuktapeContext.cpp lines 407-432): like
`call`, but the indexed object stays on the stack, so the result (or the
abort path) pops it separately. -/
def DukState.callProperty (pcallProp : DukState → Nat → PCallOut)
    (s : DukState) (objPtr : Nat) (prop : Option Nat)
    (args : List (Option Nat)) : Option Nat × DukState :=
  let s₁ := s.pushHeapPtr objPtr
  let s₂ := s₁.pushObject prop
  let s₃ := args.foldl (fun st a => st.pushObject a) s₂
  match pcallProp s₃ args.length with
  | PCallOut.success v =>
    let s₄ := { s₃ with stack := v :: s₃.stack.drop (args.length + 1) }
    s₄.popObject2
  | PCallOut.failure e =>
    let s₄ := { s₃ with stack := s₃.stack.drop (args.length + 1) }
    let s₅ := s₄.queueJavaExceptionForDuktapeError e
    -- pop off indexed object before rethrowing error
    (none, { s₅ with stack := s₅.stack.tail })

/-- The JavaMethod-construction loop of `DuktapeContext::set`: allocate one
`JavaMethod` per descriptor, failing with `std::invalid_argument` on an
invalid one. -/
def DukState.buildJavaMethods :
    DukState → List MethodDesc → Option (List (String × Nat) × DukState)
  | s, [] => some ([], s)
  | s, m :: rest =>
    if m.valid then
      match DukState.buildJavaMethods { s with nextMethodId := s.nextMethodId + 1 } rest with
      | some (ms, s₁) => some ((m.name, s.nextMethodId) :: ms, s₁)
      | none => none
    else none

/-- `DuktapeContext::set` (DuktapeContext.cpp lines 495-550), the native side
of `bindObject`: refuse a name that already exists as a global, otherwise
build the bound object (finalizer, one `JavaMethod`-backed function property
per descriptor, strong global reference under `JAVA_THIS_PROP_NAME`) and
install it as a global. -/
def DukState.set (s : DukState) (name : String) (obj : Nat)
    (methods : List MethodDesc) : DukState :=
  if (assocFind name s.globals).isSome then
    s.queueIllegalArgumentException
      ("A global object called " ++ name ++ " already exists")
  else
    match s.buildJavaMethods methods with
    | none =>
      s.queueIllegalArgumentException ("In bound method " ++ name ++ ": invalid argument")
    | some (ms, s₁) =>
      let g := JavaEnv.newRef s₁.java obj RefKind.strong
      let s₂ := { s₁ with java := g.2 }
      let a := s₂.heapAlloc { javaThis := some g.1, hasFinalizer := true, methods := ms }
      { a.2 with globals := (name, DukValue.object a.1) :: a.2.globals }

/-- `javaObjectFinalizer` (DuktapeContext.cpp lines 87-109): when the object
carries the hidden `JAVA_THIS_PROP_NAME` reference, call `DeleteGlobalRef` on
it and then delete `JAVA_METHOD_PROP_NAME` from the object (note: the code
deletes the method property, not the `JAVA_THIS` property, which therefore
stays behind); then enumerate the own properties and `delete` the
`JavaMethod` record attached to each bound-method function. -/
def DukState.javaObjectFinalizer (s : DukState) (p : Nat) : DukState :=
  match s.heapGet p with
  | none => s
  | some o =>
    let s₁ :=
      match o.javaThis with
      | some r =>
        let s₀ := { s with java := s.java.deleteRef r,
                           releasedRefs := s.releasedRefs ++ [r] }
        -- duk_del_prop_string(ctx, -1, JAVA_METHOD_PROP_NAME)
        s₀.heapSet p { o with javaMethodProp := none }
      | none => s
    { s₁ with deletedMethods := s₁.deletedMethods ++ o.methods.map (fun nm => nm.2) }

/-- A concrete context state used to exercise the theorems: host object 0 is
a `DuktapeObject`, 1 is a plain Java object, 2 is a `JavaScriptObject` handle
of this context (id 1) caching heap pointer 5, and 3 is a
`JavaScriptObject` handle of a foreign context (id 2). -/
def baseState : DukState :=
  { ctxId := 1
    java := { classes := [(0, JClass.duktapeObject), (1, JClass.plainJava),
                          (2, JClass.javaScriptObject 1 5),
                          (3, JClass.javaScriptObject 2 6)]
              collected := []
              refs := []
              nextRef := 100
              nextId := 10 }
    heap := [(5, {}), (6, {})]
    nextPtr := 50
    globals := [("console", DukValue.object 5)] }

/-- A state whose engine object 5 carries a live cached weak handle (Java
object 42, weak reference 3). -/
def c8StateLive : DukState :=
  { ctxId := 1
    java := { classes := [(42, JClass.javaScriptObject 1 5)]
              collected := []
              refs := [(3, ⟨42, RefKind.weak⟩)]
              nextRef := 4
              nextId := 43 }
    heap := [(5, { javaThisWeak := some 3 })]
    nextPtr := 6
    stack := [DukValue.object 5] }

/-- Like `c8StateLive`, but the cached handle's referent has been
collected. -/
def c8StateDead : DukState :=
  { ctxId := 1
    java := { classes := [(42, JClass.javaScriptObject 1 5)]
              collected := [42]
              refs := [(3, ⟨42, RefKind.weak⟩)]
              nextRef := 4
              nextId := 43 }
    heap := [(5, { javaThisWeak := some 3 })]
    nextPtr := 6
    stack := [DukValue.object 5] }

/-- A state whose engine object 5 carries no cached handle at all. -/
def c8StateFresh : DukState :=
  { ctxId := 1
    java := { nextRef := 0, nextId := 0 }
    heap := [(5, {})]
    nextPtr := 6
    stack := [DukValue.object 5] }

/-- A state with a proxy configuration object at 50 whose hidden handle
(reference 100) designates a plain Java object (id 1), and an empty argument
array at 60. -/
def c6State : DukState :=
  { ctxId := 1
    java := { classes := [(1, JClass.plainJava)]
              refs := [(100, ⟨1, RefKind.strong⟩)]
              nextRef := 101
              nextId := 2 }
    heap := [(50, { javaThis := some 100, hasGetTrapFn := true, hasApplyTrapFn := true }),
             (60, {})]
    nextPtr := 70 }

/-- A state with a proxy configuration object at 50 whose hidden handle
(reference 9) designates a `DuktapeObject` (id 0), and an empty argument
array at 60. -/
def c4State : DukState :=
  { ctxId := 1
    java := { classes := [(0, JClass.duktapeObject)]
              refs := [(9, ⟨0, RefKind.strong⟩)]
              nextRef := 10
              nextId := 1 }
    heap := [(50, { javaThis := some 9, hasGetTrapFn := true, hasApplyTrapFn := true }),
             (60, {})]
    nextPtr := 70 }

/-- A state with a bound object at heap pointer 5 holding the strong global
reference 7 and one bound method backed by `JavaMethod` record 3. -/
def c9State : DukState :=
  { ctxId := 1
    java := { classes := [(0, JClass.duktapeObject)]
              refs := [(7, ⟨0, RefKind.strong⟩)]
              nextRef := 8
              nextId := 1 }
    heap := [(5, { javaThis := some 7, hasFinalizer := true, methods := [("f", 3)] })]
    nextPtr := 6 }

/-! ## Helper lemmas -/

theorem assocFind_assocRemove_self {α : Type} (k : Nat) (l : List (Nat × α)) :
    assocFind k (assocRemove k l) = none := by
  induction l with
  | nil => rfl
  | cons kv rest ih =>
    obtain ⟨a, b⟩ := kv
    by_cases hak : a = k
    · simp [assocRemove, hak, ih]
    · simp [assocRemove, assocFind, hak, ih]

theorem assocFind_assocSet_self {α : Type} (k : Nat) (v : α) (l : List (Nat × α))
    (h : (assocFind k l).isSome) :
    assocFind k (assocSet k v l) = some v := by
  induction l with
  | nil => simp [assocFind] at h
  | cons kv rest ih =>
    obtain ⟨a, b⟩ := kv
    by_cases hak : a = k
    · simp [assocSet, assocFind, hak]
    · simp [assocSet, assocFind, hak] at h ⊢
      exact ih h

theorem pushProxyFor_shape (s : DukState) (oid : Nat) :
    s.pushProxyFor oid =
      { s with
        java := { s.java with
          refs := (s.java.nextRef, ⟨oid, RefKind.strong⟩) :: s.java.refs,
          nextRef := s.java.nextRef + 1 },
        heap := (s.nextPtr + 1, { proxyTarget := some s.nextPtr }) ::
                (s.nextPtr, { javaThis := some s.java.nextRef, hasFinalizer := true,
                              hasGetTrapFn := true, hasApplyTrapFn := true }) :: s.heap,
        nextPtr := s.nextPtr + 2,
        stack := DukValue.object (s.nextPtr + 1) :: s.stack } := rfl

theorem pushProxyFor_popObject (s : DukState) (oid : Nat) :
    (s.pushProxyFor oid).popObject =
      (some oid, { s.pushProxyFor oid with stack := s.stack }) := by
  rw [pushProxyFor_shape]
  simp [DukState.popObject, DukState.popObjectObjectCase, DukState.hasJavaThisProp,
        DukState.readJavaThisProp, JavaEnv.isClearedRef, JavaEnv.refTarget,
        DukState.heapGet, assocFind, scalarOf, Nat.succ_ne_self]

theorem pushObject_pending (s : DukState) (a : Option Nat) :
    (s.pushObject a).pending = s.pending := by
  cases a with
  | none => rfl
  | some oid =>
    cases hc : s.java.classOf oid with
    | none => simp [DukState.pushObject, hc]
    | some cls =>
      cases cls with
      | javaScriptObject c ptr =>
        by_cases hcc : c = s.ctxId <;>
          simp [DukState.pushObject, DukState.pushProxyFor, DukState.pushVal,
                DukState.makeProxy, DukState.heapAlloc, JavaEnv.newRef, hc, hcc]
      | nativeScalar v =>
        cases v <;> simp [DukState.pushObject, DukState.pushVal, hc]
      | duktapeObject =>
        simp [DukState.pushObject, DukState.pushProxyFor, DukState.pushVal,
              DukState.makeProxy, DukState.heapAlloc, JavaEnv.newRef, hc]
      | javaObject w =>
        simp [DukState.pushObject, DukState.pushProxyFor, DukState.pushVal,
              DukState.makeProxy, DukState.heapAlloc, JavaEnv.newRef, hc]
      | plainJava =>
        simp [DukState.pushObject, DukState.pushProxyFor, DukState.pushVal,
              DukState.makeProxy, DukState.heapAlloc, JavaEnv.newRef,
              JavaEnv.newObject, hc]
      | boxedArray =>
        simp [DukState.pushObject, DukState.pushVal, DukState.heapAlloc, hc]

theorem foldl_pushObject_pending (args : List (Option Nat)) (s : DukState) :
    (args.foldl (fun st a => st.pushObject a) s).pending = s.pending := by
  induction args generalizing s with
  | nil => rfl
  | cons a rest ih =>
    rw [List.foldl_cons, ih (s.pushObject a), pushObject_pending]

/-! ## C10 -/

/-- C10: pushing a null host reference with `pushObject` pushes the engine
null value — exactly one stack slot, no proxy created, no heap allocation,
no error queued (the state is otherwise unchanged) — so a null argument to
`call` / `callProperty` / `setGlobalProperty` marshals as script null. -/
theorem pushObject_null_pushes_engine_null (s : DukState) :
    s.pushObject none = { s with stack := DukValue.nullVal :: s.stack } := rfl

/-! ## C5 -/

/-- C5: binding a name that already exists as a global fails with a
DuplicateGlobal condition: exactly one host-visible
`IllegalArgumentException` is queued, the operation is aborted, and the
existing global and the engine heap backing it are left untouched, so a
subsequent property read on the name still resolves to the previously bound
object's state. -/
theorem duplicate_global_binding_rejected (s : DukState) (name : String)
    (obj : Nat) (methods : List MethodDesc) (v : DukValue)
    (h : assocFind name s.globals = some v) :
    (s.set name obj methods).pending =
      s.pending ++ [HostExn.illegalArgument
        ("A global object called " ++ name ++ " already exists")]
    ∧ (s.set name obj methods).globals = s.globals
    ∧ (s.set name obj methods).heap = s.heap
    ∧ assocFind name (s.set name obj methods).globals = some v := by
  unfold DukState.set
  rw [h]
  exact ⟨rfl, rfl, rfl, h⟩

/-- Witness for C5: rebinding the existing global "console" of `baseState`
is rejected and the global still resolves as before. -/
theorem duplicate_global_binding_rejected_witness :
    (baseState.set "console" 0 []).pending =
      baseState.pending ++ [HostExn.illegalArgument
        ("A global object called " ++ "console" ++ " already exists")]
    ∧ (baseState.set "console" 0 []).globals = baseState.globals
    ∧ (baseState.set "console" 0 []).heap = baseState.heap
    ∧ assocFind "console" (baseState.set "console" 0 []).globals =
        some (DukValue.object 5) :=
  duplicate_global_binding_rejected baseState "console" 0 [] (DukValue.object 5) rfl

/-! ## C3 -/

/-- C3: pushing a host handle that wraps an engine-heap pointer is
Context-scoped: into the context that created it, the raw cached heap
pointer is pushed directly and nothing else changes (no new proxy); into any
other context, the pointer is not reused and the handle is re-wrapped as a
brand-new host-object proxy (fresh configuration object holding a fresh
strong reference to the handle, fresh proxy object). -/
theorem engine_handle_push_context_scoped (s : DukState) (oid : Nat)
    (c : Nat) (ptr : Nat)
    (h : s.java.classOf oid = some (JClass.javaScriptObject c ptr)) :
    (c = s.ctxId →
      s.pushObject (some oid) = { s with stack := DukValue.object ptr :: s.stack })
    ∧ (c ≠ s.ctxId →
      (s.pushObject (some oid)).stack = DukValue.object (s.nextPtr + 1) :: s.stack
      ∧ (s.pushObject (some oid)).heapGet (s.nextPtr + 1) =
          some { proxyTarget := some s.nextPtr }
      ∧ ((s.pushObject (some oid)).heapGet s.nextPtr).bind (fun o => o.javaThis) =
          some s.java.nextRef
      ∧ (s.pushObject (some oid)).java.refTarget s.java.nextRef = some oid
      ∧ (ptr < s.nextPtr →
          DukValue.object (s.nextPtr + 1) ≠ DukValue.object ptr)) := by
  constructor
  · intro hc
    simp [DukState.pushObject, h, hc, DukState.pushVal]
  · intro hc
    have hp : s.pushObject (some oid) = s.pushProxyFor oid := by
      simp [DukState.pushObject, h, hc]
    rw [hp, pushProxyFor_shape]
    refine ⟨rfl, ?_, ?_, ?_, ?_⟩
    · simp [DukState.heapGet, assocFind]
    · simp [DukState.heapGet, assocFind, Nat.succ_ne_self]
    · simp [JavaEnv.refTarget, assocFind]
    · intro hlt heq
      simp only [DukValue.object.injEq] at heq
      omega

/-- Witness for C3 at `baseState`: handle 2 belongs to this context
(pointer 5 is reused directly), handle 3 belongs to a foreign context (a
fresh proxy is created). -/
theorem engine_handle_push_context_scoped_witness :
    (baseState.pushObject (some 2) =
      { baseState with stack := DukValue.object 5 :: baseState.stack })
    ∧ ((baseState.pushObject (some 3)).stack =
        DukValue.object (baseState.nextPtr + 1) :: baseState.stack
      ∧ (baseState.pushObject (some 3)).heapGet (baseState.nextPtr + 1) =
          some { proxyTarget := some baseState.nextPtr }
      ∧ ((baseState.pushObject (some 3)).heapGet baseState.nextPtr).bind
          (fun o => o.javaThis) = some baseState.java.nextRef
      ∧ (baseState.pushObject (some 3)).java.refTarget baseState.java.nextRef =
          some 3
      ∧ (6 < baseState.nextPtr →
          DukValue.object (baseState.nextPtr + 1) ≠ DukValue.object 6)) :=
  ⟨(engine_handle_push_context_scoped baseState 2 1 5 rfl).1 rfl,
   (engine_handle_push_context_scoped baseState 3 2 6 rfl).2 (by decide)⟩

/-! ## C1 -/

/-- C1 counterexample: crossing the same host object (the `DuktapeObject`
with identity 0) twice through `pushObject` in the same context yields two
distinct engine-heap proxies (heap pointers 51 and 53), even though both
configuration objects' strong references (100 and 101) designate the same
host object — so at most-one-proxy-per-host-object fails. -/
theorem proxy_reuse_counterexample :
    ((baseState.pushObject (some 0)).pushObject (some 0)).stack =
      [DukValue.object 53, DukValue.object 51]
    ∧ (53 : Nat) ≠ 51
    ∧ ((baseState.pushObject (some 0)).pushObject (some 0)).java.refTarget 100 =
        some 0
    ∧ ((baseState.pushObject (some 0)).pushObject (some 0)).java.refTarget 101 =
        some 0 := by decide

/-- C1 (amended): proxy reuse within one context holds only for host handles
that already wrap an engine-heap pointer for this context — pushing such a
handle twice pushes the identical cached heap pointer both times and
allocates nothing — while pushing any other host object (here a
`DuktapeObject`) twice allocates a brand-new proxy on each crossing, so the
two script-side values are distinct. -/
theorem host_object_crossing_identity (s : DukState) (hId cId : Nat)
    (ptr : Nat)
    (hH : s.java.classOf hId = some (JClass.javaScriptObject s.ctxId ptr))
    (hC : s.java.classOf cId = some JClass.duktapeObject) :
    ((s.pushObject (some hId)).pushObject (some hId)).stack =
      DukValue.object ptr :: DukValue.object ptr :: s.stack
    ∧ ((s.pushObject (some hId)).pushObject (some hId)).heap = s.heap
    ∧ ((s.pushObject (some cId)).pushObject (some cId)).stack =
        DukValue.object (s.nextPtr + 3) :: DukValue.object (s.nextPtr + 1) :: s.stack
    ∧ DukValue.object (s.nextPtr + 1) ≠ DukValue.object (s.nextPtr + 3) := by
  have push1 : s.pushObject (some hId) = { s with stack := DukValue.object ptr :: s.stack } := by
    simp [DukState.pushObject, hH, DukState.pushVal]
  have push2 : ({ s with stack := DukValue.object ptr :: s.stack } : DukState).pushObject (some hId) =
      { s with stack := DukValue.object ptr :: DukValue.object ptr :: s.stack } := by
    simp [DukState.pushObject, DukState.pushVal]
    simp [JavaEnv.classOf] at hH ⊢
    simp [hH]
  have pushc1 : s.pushObject (some cId) = s.pushProxyFor cId := by
    simp [DukState.pushObject, hC]
  have pushc2 : (s.pushProxyFor cId).pushObject (some cId) =
      (s.pushProxyFor cId).pushProxyFor cId := by
    have hC2 : (s.pushProxyFor cId).java.classOf cId = some JClass.duktapeObject := hC
    simp [DukState.pushObject, hC2]
  refine ⟨?_, ?_, ?_, ?_⟩
  · rw [push1, push2]
  · rw [push1, push2]
  · rw [pushc1, pushc2, pushProxyFor_shape s cId, pushProxyFor_shape]
  · intro heq
    simp only [DukValue.object.injEq] at heq
    omega

/-- Witness for C1 (amended) at `baseState`: handle 2 (this context,
pointer 5) is pushed twice with identical results; `DuktapeObject` 0 is
pushed twice producing two distinct proxies. -/
theorem host_object_crossing_identity_witness :
    ((baseState.pushObject (some 2)).pushObject (some 2)).stack =
      DukValue.object 5 :: DukValue.object 5 :: baseState.stack
    ∧ ((baseState.pushObject (some 2)).pushObject (some 2)).heap = baseState.heap
    ∧ ((baseState.pushObject (some 0)).pushObject (some 0)).stack =
        DukValue.object (baseState.nextPtr + 3) ::
          DukValue.object (baseState.nextPtr + 1) :: baseState.stack
    ∧ DukValue.object (baseState.nextPtr + 1) ≠
        DukValue.object (baseState.nextPtr + 3) :=
  host_object_crossing_identity baseState 2 0 5 rfl rfl

/-! ## C2 -/

/-- C2 counterexample: a plain host object (identity 1) pushed into the
engine heap and immediately popped back does not come back
reference-identical: `pushObject` first wraps it in a fresh `JavaObject`
adapter (identity 10), and the round trip returns that adapter, not the
original object. -/
theorem round_trip_plain_object_counterexample :
    ((baseState.pushObject (some 1)).popObject).1 = some 10
    ∧ (10 : Nat) ≠ 1
    ∧ ((baseState.pushObject (some 1)).popObject).2.java.classOf 10 =
        some (JClass.javaObject 1) := by decide

/-- C2 (amended): the push-then-pop round trip returns a reference-identical
object exactly for proxy-capable host objects: a `DuktapeObject` comes back
as itself (no intervening collection can clear the strong reference), while
a plain host object comes back as the fresh `JavaObject` adapter that
wrapped it. -/
theorem round_trip_identity (s : DukState) (x y : Nat)
    (hx : s.java.classOf x = some JClass.duktapeObject)
    (hy : s.java.classOf y = some JClass.plainJava) :
    ((s.pushObject (some x)).popObject).1 = some x
    ∧ ((s.pushObject (some x)).popObject).2.stack = s.stack
    ∧ ((s.pushObject (some y)).popObject).1 = some s.java.nextId
    ∧ ((s.pushObject (some y)).popObject).2.java.classOf s.java.nextId =
        some (JClass.javaObject y) := by
  have px : s.pushObject (some x) = s.pushProxyFor x := by
    simp [DukState.pushObject, hx]
  have py : s.pushObject (some y) =
      ({ s with java := (JavaEnv.newObject s.java (JClass.javaObject y)).2 } : DukState).pushProxyFor
        (JavaEnv.newObject s.java (JClass.javaObject y)).1 := by
    simp [DukState.pushObject, hy]
  refine ⟨?_, ?_, ?_, ?_⟩
  · rw [px, pushProxyFor_popObject]
  · rw [px, pushProxyFor_popObject]
  · rw [py, pushProxyFor_popObject]
    simp [JavaEnv.newObject]
  · rw [py, pushProxyFor_popObject]
    simp [pushProxyFor_shape, JavaEnv.newObject, JavaEnv.classOf, assocFind]

/-- Witness for C2 (amended) at `baseState`: `DuktapeObject` 0 round-trips
to itself; plain object 1 round-trips to the fresh adapter (identity 10). -/
theorem round_trip_identity_witness :
    ((baseState.pushObject (some 0)).popObject).1 = some 0
    ∧ ((baseState.pushObject (some 0)).popObject).2.stack = baseState.stack
    ∧ ((baseState.pushObject (some 1)).popObject).1 = some baseState.java.nextId
    ∧ ((baseState.pushObject (some 1)).popObject).2.java.classOf
        baseState.java.nextId = some (JClass.javaObject 1) :=
  round_trip_identity baseState 0 1 rfl rfl

/-! ## C7 -/

/-- C7: `popObject` classifies the engine-stack top in source order — scalar
type-mask (boolean/number/string) first, array second, generic object third
— and for a value of any other type (undefined, null, pointer, buffer) it
pops exactly one stack slot and returns a null result with no error raised
and no other state change. -/
theorem pop_classification (s : DukState) (v : DukValue) (rest : List DukValue)
    (h : s.stack = v :: rest) :
    (∀ sc, scalarOf v = some sc →
      s.popObject = (some s.java.nextId,
        { s with
            java := { s.java with
                        classes := (s.java.nextId, JClass.nativeScalar sc) ::
                                     s.java.classes
                        nextId := s.java.nextId + 1 }
            stack := rest }))
    ∧ (∀ p, v = DukValue.array p →
      s.popObject = (some s.java.nextId,
        { s with
            java := { s.java with
                        classes := (s.java.nextId, JClass.boxedArray) ::
                                     s.java.classes
                        nextId := s.java.nextId + 1 }
            stack := rest }))
    ∧ (∀ p, v = DukValue.object p → s.popObject = s.popObjectObjectCase p rest)
    ∧ ((scalarOf v).isNone → (∀ p, v ≠ DukValue.array p) →
        (∀ p, v ≠ DukValue.object p) →
        s.popObject = (none, { s with stack := rest })) := by
  refine ⟨?_, ?_, ?_, ?_⟩
  · intro sc hsc
    simp [DukState.popObject, h, hsc, JavaEnv.newObject]
  · intro p hp
    subst hp
    simp [DukState.popObject, h, scalarOf, JavaEnv.newObject]
  · intro p hp
    subst hp
    simp [DukState.popObject, h, scalarOf]
  · intro h1 h2 h3
    cases v with
    | boolean b => simp [scalarOf] at h1
    | number n => simp [scalarOf] at h1
    | str t => simp [scalarOf] at h1
    | array p => exact absurd rfl (h2 p)
    | object p => exact absurd rfl (h3 p)
    | undefined => simp [DukState.popObject, h, scalarOf]
    | nullVal => simp [DukState.popObject, h, scalarOf]
    | pointer r => simp [DukState.popObject, h, scalarOf]
    | buffer => simp [DukState.popObject, h, scalarOf]

/-- A minimal state with the given single stack slot, for exercising
`popObject` classification. -/
def stackState (v : DukValue) : DukState := { stack := [v] }

/-- Witness for C7: one concrete pop for each classification branch. -/
theorem pop_classification_witness :
    (stackState (DukValue.boolean true)).popObject =
      (some (stackState (DukValue.boolean true)).java.nextId,
        { stackState (DukValue.boolean true) with
            java := { (stackState (DukValue.boolean true)).java with
                        classes := ((stackState (DukValue.boolean true)).java.nextId,
                                     JClass.nativeScalar (ScalarVal.boolean true)) ::
                                     (stackState (DukValue.boolean true)).java.classes
                        nextId := (stackState (DukValue.boolean true)).java.nextId + 1 }
            stack := [] })
    ∧ (stackState (DukValue.array 4)).popObject =
      (some (stackState (DukValue.array 4)).java.nextId,
        { stackState (DukValue.array 4) with
            java := { (stackState (DukValue.array 4)).java with
                        classes := ((stackState (DukValue.array 4)).java.nextId,
                                     JClass.boxedArray) ::
                                     (stackState (DukValue.array 4)).java.classes
                        nextId := (stackState (DukValue.array 4)).java.nextId + 1 }
            stack := [] })
    ∧ (stackState (DukValue.object 4)).popObject =
        (stackState (DukValue.object 4)).popObjectObjectCase 4 []
    ∧ (stackState DukValue.undefined).popObject =
        (none, { stackState DukValue.undefined with stack := [] }) :=
  ⟨(pop_classification (stackState (DukValue.boolean true))
      (DukValue.boolean true) [] rfl).1 (ScalarVal.boolean true) rfl,
   (pop_classification (stackState (DukValue.array 4))
      (DukValue.array 4) [] rfl).2.1 4 rfl,
   (pop_classification (stackState (DukValue.object 4))
      (DukValue.object 4) [] rfl).2.2.1 4 rfl,
   (pop_classification (stackState DukValue.undefined)
      DukValue.undefined [] rfl).2.2.2 rfl
     (fun _ hp => DukValue.noConfusion hp)
     (fun _ hp => DukValue.noConfusion hp)⟩

/-! ## C8 -/

/-- C8: popping an engine-heap object to the host: (a) when it carries a
cached weak host handle whose referent is alive, that same handle is
returned unchanged and nothing else changes; (b) when the cached handle's
referent has been collected, the stale weak reference and identity property
are cleared and a fresh handle is created; (b, c) a newly created handle
registers the engine-heap pointer in the context-wide stash (keeping the
script object strongly reachable) and only a weak host reference to the new
handle is attached onto the engine object. -/
theorem pop_engine_object_handle_cache (s : DukState) (p : Nat) (o : DukObj)
    (rest : List DukValue)
    (hstack : s.stack = DukValue.object p :: rest)
    (ho : s.heapGet p = some o)
    (hnp : o.proxyTarget = none) :
    (∀ w hid, o.javaThisWeak = some w →
      s.java.refInfo w = some ⟨hid, RefKind.weak⟩ →
      memNat hid s.java.collected = false →
      s.popObject = (some hid, { s with stack := rest }))
    ∧ (∀ w hid, o.javaThisWeak = some w →
      s.java.refInfo w = some ⟨hid, RefKind.weak⟩ →
      memNat hid s.java.collected = true →
      w ≠ s.java.nextRef →
      (s.popObject).1 = some s.java.nextId
      ∧ (s.popObject).2.java.refInfo w = none
      ∧ (s.popObject).2.heapGet p = some { o with javaThisWeak := some s.java.nextRef }
      ∧ (s.popObject).2.stash = p :: s.stash
      ∧ (s.popObject).2.java.refInfo s.java.nextRef = some ⟨s.java.nextId, RefKind.weak⟩
      ∧ (s.popObject).2.java.classOf s.java.nextId =
          some (JClass.javaScriptObject s.ctxId p)
      ∧ (s.popObject).2.stack = rest)
    ∧ (o.javaThisWeak = none →
      (s.popObject).1 = some s.java.nextId
      ∧ (s.popObject).2.heapGet p = some { o with javaThisWeak := some s.java.nextRef }
      ∧ (s.popObject).2.stash = p :: s.stash
      ∧ (s.popObject).2.java.refInfo s.java.nextRef = some ⟨s.java.nextId, RefKind.weak⟩
      ∧ (s.popObject).2.java.classOf s.java.nextId =
          some (JClass.javaScriptObject s.ctxId p)
      ∧ (s.popObject).2.stack = rest) := by
  have hpop : s.popObject = s.popObjectObjectCase p rest := by
    simp [DukState.popObject, hstack, scalarOf]
  have hs : (assocFind p s.heap).isSome := by
    have := ho
    simp [DukState.heapGet] at this
    simp [this]
  refine ⟨?_, ?_, ?_⟩
  · intro w hid hw hr hcol
    have hr' : assocFind w s.java.refs = some ⟨hid, RefKind.weak⟩ := hr
    rw [hpop]
    simp [DukState.popObjectObjectCase, DukState.hasJavaThisProp,
          DukState.readJavaThisProp, JavaEnv.isClearedRef, JavaEnv.refTarget,
          ho, hnp, hw, hr', hcol]
  · intro w hid hw hr hcol hwf
    have hr' : assocFind w s.java.refs = some ⟨hid, RefKind.weak⟩ := hr
    have hwf' : ¬ (s.java.nextRef = w) := fun hh => hwf hh.symm
    have ho' : assocFind p s.heap = some o := ho
    rw [hpop]
    simp [DukState.popObjectObjectCase, DukState.hasJavaThisProp,
          DukState.readJavaThisProp, JavaEnv.isClearedRef, JavaEnv.refTarget,
          JavaEnv.deleteRef, JavaEnv.newObject, JavaEnv.newRef, JavaEnv.refInfo,
          JavaEnv.classOf, DukState.heapGet, DukState.heapSet, assocFind,
          assocFind_assocRemove_self, assocFind_assocSet_self,
          ho', hnp, hw, hr', hcol, hwf, hwf', hs]
  · intro hw
    have ho' : assocFind p s.heap = some o := ho
    rw [hpop]
    simp [DukState.popObjectObjectCase, DukState.hasJavaThisProp,
          DukState.readJavaThisProp, JavaEnv.refTarget, JavaEnv.refInfo,
          JavaEnv.classOf, JavaEnv.newObject, JavaEnv.newRef,
          DukState.heapGet, DukState.heapSet, assocFind,
          assocFind_assocSet_self, hs,
          ho', hnp, hw]

/-- Witness for C8: the three cache situations exercised at concrete states —
`c8StateLive` returns the cached handle 42 unchanged, `c8StateDead` clears
the stale entry and creates a fresh handle, `c8StateFresh` creates a handle
from scratch. -/
theorem pop_engine_object_handle_cache_witness :
    c8StateLive.popObject = (some 42, { c8StateLive with stack := [] })
    ∧ ((c8StateDead.popObject).1 = some c8StateDead.java.nextId
      ∧ (c8StateDead.popObject).2.java.refInfo 3 = none
      ∧ (c8StateDead.popObject).2.heapGet 5 =
          some { ({ javaThisWeak := some 3 } : DukObj) with
                   javaThisWeak := some c8StateDead.java.nextRef }
      ∧ (c8StateDead.popObject).2.stash = 5 :: c8StateDead.stash
      ∧ (c8StateDead.popObject).2.java.refInfo c8StateDead.java.nextRef =
          some ⟨c8StateDead.java.nextId, RefKind.weak⟩
      ∧ (c8StateDead.popObject).2.java.classOf c8StateDead.java.nextId =
          some (JClass.javaScriptObject c8StateDead.ctxId 5)
      ∧ (c8StateDead.popObject).2.stack = [])
    ∧ ((c8StateFresh.popObject).1 = some c8StateFresh.java.nextId
      ∧ (c8StateFresh.popObject).2.heapGet 5 =
          some { ({} : DukObj) with javaThisWeak := some c8StateFresh.java.nextRef }
      ∧ (c8StateFresh.popObject).2.stash = 5 :: c8StateFresh.stash
      ∧ (c8StateFresh.popObject).2.java.refInfo c8StateFresh.java.nextRef =
          some ⟨c8StateFresh.java.nextId, RefKind.weak⟩
      ∧ (c8StateFresh.popObject).2.java.classOf c8StateFresh.java.nextId =
          some (JClass.javaScriptObject c8StateFresh.ctxId 5)
      ∧ (c8StateFresh.popObject).2.stack = []) :=
  ⟨(pop_engine_object_handle_cache c8StateLive 5 { javaThisWeak := some 3 } []
      rfl rfl rfl).1 3 42 rfl rfl rfl,
   (pop_engine_object_handle_cache c8StateDead 5 { javaThisWeak := some 3 } []
      rfl rfl rfl).2.1 3 42 rfl rfl rfl (by decide),
   (pop_engine_object_handle_cache c8StateFresh 5 {} []
      rfl rfl rfl).2.2 rfl⟩

/-! ## C4 -/

/-- C4: when a host method invoked through the apply trap raises a host-side
exception, the trap propagates an engine-level execution error immediately
without marshalling a result (and without touching the state), and a `call`
or `callProperty` whose engine execution fails with that error returns no
result (null) with exactly one host-visible exception queued. -/
theorem apply_trap_exception_propagation
    (hostInvoke : Nat → Option Nat → List (Option Nat) → Except Nat (Option Nat))
    (s : DukState) (targetPtr argsPtr fnPtr g oid e : Nat)
    (argsObj : DukObj) (args : List (Option Nat)) (prop : Option Nat)
    (h1 : (s.heapGet targetPtr).bind (fun o => o.javaThis) = some g)
    (h2 : s.java.refTarget g = some oid)
    (h3 : s.java.classOf oid = some JClass.duktapeObject)
    (h4 : s.heapGet argsPtr = some argsObj)
    (h4e : argsObj.elems = [])
    (h5 : hostInvoke oid none [] = Except.error e) :
    dukApply hostInvoke s targetPtr DukValue.nullVal argsPtr =
      Except.ok (TrapOut.engineError (EngineErr.fromHost e) s)
    ∧ trapMarshalledResult
        (dukApply hostInvoke s targetPtr DukValue.nullVal argsPtr) = false
    ∧ (DukState.call (fun _ _ => PCallOut.failure (EngineErr.fromHost e))
        s fnPtr args).1 = none
    ∧ (DukState.call (fun _ _ => PCallOut.failure (EngineErr.fromHost e))
        s fnPtr args).2.pending =
        s.pending ++ [HostExn.fromEngine (EngineErr.fromHost e)]
    ∧ (DukState.callProperty (fun _ _ => PCallOut.failure (EngineErr.fromHost e))
        s fnPtr prop args).1 = none
    ∧ (DukState.callProperty (fun _ _ => PCallOut.failure (EngineErr.fromHost e))
        s fnPtr prop args).2.pending =
        s.pending ++ [HostExn.fromEngine (EngineErr.fromHost e)] := by
  have happ : dukApply hostInvoke s targetPtr DukValue.nullVal argsPtr =
      Except.ok (TrapOut.engineError (EngineErr.fromHost e) s) := by
    simp [dukApply, DukState.marshalArgs, DukState.popObject, DukState.pushVal,
          scalarOf, h1, h2, h3, h4, h4e, h5, JClass.isAssignableToDuktapeObject]
  refine ⟨happ, ?_, ?_, ?_, ?_, ?_⟩
  · rw [happ]
    rfl
  · simp [DukState.call]
  · simp [DukState.call, DukState.queueJavaExceptionForDuktapeError,
          foldl_pushObject_pending, DukState.pushHeapPtr, DukState.pushVal]
  · simp [DukState.callProperty]
  · simp [DukState.callProperty, DukState.queueJavaExceptionForDuktapeError,
          foldl_pushObject_pending, pushObject_pending, DukState.pushHeapPtr,
          DukState.pushVal]

/-- Witness for C4 at `c4State`: the host method raises exception 5; the trap
propagates it as an engine error with no result; `call` / `callProperty`
against that failure return null and queue exactly one exception. -/
theorem apply_trap_exception_propagation_witness :
    dukApply (fun _ _ _ => Except.error 5) c4State 50 DukValue.nullVal 60 =
      Except.ok (TrapOut.engineError (EngineErr.fromHost 5) c4State)
    ∧ trapMarshalledResult
        (dukApply (fun _ _ _ => Except.error 5) c4State 50 DukValue.nullVal 60) = false
    ∧ (DukState.call (fun _ _ => PCallOut.failure (EngineErr.fromHost 5))
        c4State 60 [none]).1 = none
    ∧ (DukState.call (fun _ _ => PCallOut.failure (EngineErr.fromHost 5))
        c4State 60 [none]).2.pending =
        c4State.pending ++ [HostExn.fromEngine (EngineErr.fromHost 5)]
    ∧ (DukState.callProperty (fun _ _ => PCallOut.failure (EngineErr.fromHost 5))
        c4State 60 none [none]).1 = none
    ∧ (DukState.callProperty (fun _ _ => PCallOut.failure (EngineErr.fromHost 5))
        c4State 60 none [none]).2.pending =
        c4State.pending ++ [HostExn.fromEngine (EngineErr.fromHost 5)] :=
  apply_trap_exception_propagation (fun _ _ _ => Except.error 5) c4State
    50 60 60 9 0 5
    {} [none] none rfl rfl rfl rfl rfl rfl

/-! ## C6 -/

/-- C6 counterexample: at `c6State` the get trap's bound host object (a
plain Java object, not a `DuktapeObject`) fails the capability check, and
the outcome is the C++ exception thrown by `fatalErrorHandler` — not a
script-visible reference error, not an engine error, and no host-visible
exception is queued — so the failure is not the recoverable
TypeCapabilityError the claim describes.  The apply trap behaves the same
way. -/
theorem capability_failure_counterexample :
    dukGet (fun _ _ => none) c6State 50 "foo" =
      Except.error "Object is not DuktapeObject"
    ∧ trapEngineErr (dukGet (fun _ _ => none) c6State 50 "foo") = none
    ∧ trapMarshalledResult (dukGet (fun _ _ => none) c6State 50 "foo") = false
    ∧ dukApply (fun _ _ _ => Except.ok none) c6State 50 DukValue.nullVal 60 =
        Except.error "Object is not DuktapeObject" := ⟨rfl, rfl, rfl, rfl⟩

/-- C6 (amended): when the bound host object of a get or apply trap does not
satisfy the required capability (it is not assignable to `DuktapeObject`),
the failure is treated as a fatal condition: `fatalErrorHandler` is invoked
and throws, unwinding out of the trap, so the `DUK_RET_REFERENCE_ERROR`
return after it is unreachable and no host-visible exception is queued. -/
theorem capability_failure_is_fatal
    (hostGet : Nat → String → Option Nat)
    (hostInvoke : Nat → Option Nat → List (Option Nat) → Except Nat (Option Nat))
    (s : DukState) (targetPtr argsPtr g oid : Nat) (prop : String)
    (argsObj : DukObj) (cls : JClass)
    (h1 : (s.heapGet targetPtr).bind (fun o => o.javaThis) = some g)
    (h2 : s.java.refTarget g = some oid)
    (h3 : s.java.classOf oid = some cls)
    (h3c : cls.isAssignableToDuktapeObject = false)
    (hp : prop ≠ "__java_this")
    (h4 : s.heapGet argsPtr = some argsObj)
    (h4e : argsObj.elems = []) :
    dukGet hostGet s targetPtr prop = Except.error "Object is not DuktapeObject"
    ∧ dukApply hostInvoke s targetPtr DukValue.nullVal argsPtr =
        Except.error "Object is not DuktapeObject" := by
  constructor
  · simp [dukGet, fatalErrorHandler, h1, h2, h3, h3c, hp]
  · simp [dukApply, DukState.marshalArgs, DukState.popObject, DukState.pushVal,
          scalarOf, fatalErrorHandler, h1, h2, h3, h3c, h4, h4e]

/-- Witness for C6 (amended) at `c6State` with a different property name. -/
theorem capability_failure_is_fatal_witness :
    dukGet (fun _ _ => none) c6State 50 "someProp" =
      Except.error "Object is not DuktapeObject"
    ∧ dukApply (fun _ _ _ => Except.ok none) c6State 50 DukValue.nullVal 60 =
        Except.error "Object is not DuktapeObject" :=
  capability_failure_is_fatal (fun _ _ => none) (fun _ _ _ => Except.ok none)
    c6State 50 60 100 1 "someProp" {} JClass.plainJava
    rfl rfl rfl rfl (by decide) rfl rfl

/-! ## C9 -/

/-- C9: the code violates the claim.  `javaObjectFinalizer` deletes
`JAVA_METHOD_PROP_NAME` from the object instead of `JAVA_THIS_PROP_NAME`
(DuktapeContext.cpp line 92), so the hidden strong reference is still
attached after a finalization pass; when the collector invokes the finalizer
a second time on the same object (Duktape finalizers can run more than
once), the same global reference is released again and every attached
`JavaMethod` is destroyed again — twice in total, not exactly once. -/
theorem finalizer_double_release :
    ((c9State.javaObjectFinalizer 5).javaObjectFinalizer 5).releasedRefs = [7, 7]
    ∧ ((c9State.javaObjectFinalizer 5).javaObjectFinalizer 5).deletedMethods = [3, 3]
    ∧ ((((c9State.javaObjectFinalizer 5).javaObjectFinalizer 5).heapGet 5).bind
        (fun o => o.javaThis)) = some 7 := by decide

end DuktapeBridge
